import Mathlib

/-!
Verification development for the AI_ChatBot repository.

Shallow embedding of the parts of the code the specification talks about:

* the VoiceVox speech-synthesis client as rewritten by `fix_voicevox.py`
  (the replacement module it writes to `src/voicevox_client.py`): the
  synthesis worker `_generate_audio_sync`, the cached entry point
  `generate_audio` (also exposed as `text_to_speech_parallel`), and
  `cleanup_cache`;
* the presence monitor `check_user_status` in `src/discord_bot.py`
  (voice-membership edges and the 3-minute grace timeout);
* the autonomous join routine `autonomous_voice_join` in `src/discord_bot.py`;
* the response formatter of `GeminiClient.generate_response` in
  `src/gemini_client.py`;
* the conversation history of `CharacterManager` in
  `src/character_manager.py`;
* the `on_message` handler of `CharacterBot` in `src/discord_bot.py`.

Python strings are modelled as `List Char` (sequences of code points, the
unit Python `len` and slicing operate on); timestamps as natural-number
seconds; file paths as opaque `String`; the filesystem as a predicate
`String → Bool` (`os.path.exists`); the HTTP engine as an oracle
`List Char → Nat → Option String` returning the temp-file path written for
a successful `audio_query`/`synthesis` round trip, or `none` when any of
those steps raises. The unbounded recursion of `_generate_audio_sync` is
made total with an explicit fuel parameter; running out of fuel is the
`diverged` outcome (Python: the recursion never returns normally and ends
in a `RecursionError`).
-/

namespace AIChatBot

/-- Outcome of one `_generate_audio_sync` run: `ok path` when the audio
bytes were persisted to a temp file, `failed` when the routine returned
`None`, `diverged` when the recursion does not terminate (fuel exhausted;
in Python a `RecursionError` escapes the worker). -/
inductive SyncOutcome where
  | ok (path : String)
  | failed
  | diverged
  deriving DecidableEq

/-- Mutable fields of the `VoiceVoxClient` instance from `fix_voicevox.py`:
`_cache` (a Python dict from the string key to the audio path, modelled as
an insertion-ordered association list), `_error_count` and
`_last_success_time`. -/
structure VoiceVoxClientState where
  cache : List (List Char × String)
  error_count : Nat
  last_success_time : Nat
  deriving DecidableEq

/-- Engine oracle: what the two-request round trip
(`POST /audio_query` then `POST /synthesis`, followed by the temp-file
write) produces for a given text and speaker id, `none` on any failure. -/
abbrev Engine := List Char → Nat → Option String

/-- Python literal `"..."` appended by the truncation paths. -/
def ellipsis : List Char := ['.', '.', '.']

/-- Embedding of `VoiceVoxClient._generate_audio_sync`
(`fix_voicevox.py`, lines 40-114 of the embedded module).

On engine success the temp-file path is returned at once; the
`self._error_count = 0` / `self._last_success_time = time.time()` lines of
the source stand after the `return` inside the `with` block (lines 93-95)
and are unreachable, so the state is returned unchanged. On failure the
error counter is incremented, and when it exceeds 5 while the text is
longer than 50 characters the routine calls itself on
`text[:50] + "..."`. The `time.time() - self._last_success_time > 120`
branch only logs and is state-neutral, so it is omitted. The third
component counts engine round trips. -/
def _generate_audio_sync (engine : Engine) :
    Nat → VoiceVoxClientState → List Char → Nat → SyncOutcome × VoiceVoxClientState × Nat
  | 0, st, _, _ => (SyncOutcome.diverged, st, 0)
  | fuel + 1, st, text, speaker_id =>
    match engine text speaker_id with
    | some path => (SyncOutcome.ok path, st, 1)
    | none =>
      let st1 := { st with error_count := st.error_count + 1 }
      if 5 < st1.error_count ∧ 50 < text.length then
        let truncated_text := text.take 50 ++ ellipsis
        let res := _generate_audio_sync engine fuel st1 truncated_text speaker_id
        (res.1, res.2.1, res.2.2 + 1)
      else
        (SyncOutcome.failed, st1, 1)

/-- Cache key `f"{speaker_id}:{text}"`. -/
def cache_key (speaker_id : Nat) (text : List Char) : List Char :=
  (toString speaker_id).data ++ ':' :: text

/-- Python dict assignment `cache[key] = value`: replace in place when the
key is present, else append a new entry (dicts preserve insertion order). -/
def dict_insert (c : List (List Char × String)) (k : List Char) (v : String) :
    List (List Char × String) :=
  if c.any fun kv => k == kv.1 then
    c.map fun kv => if k == kv.1 then (kv.1, v) else kv
  else
    c ++ [(k, v)]

/-- Embedding of `VoiceVoxClient.generate_audio` (`fix_voicevox.py`,
lines 116-156 of the embedded module).

Empty or whitespace-only text (`not text or not text.strip()`) is rejected
with no engine contact. A cache hit whose path still exists on the
filesystem is returned with no engine contact. Otherwise the synchronous
worker runs; a truthy returned path is stored in the cache. A worker that
never returns (`diverged`) surfaces as the `except` branch of the source:
`None` is returned and nothing is cached. The third component counts
engine round trips. -/
def generate_audio (fuel : Nat) (engine : Engine) (fs : String → Bool)
    (st : VoiceVoxClientState) (text : List Char) (speaker_id : Nat) :
    Option String × VoiceVoxClientState × Nat :=
  if text.all Char.isWhitespace then (none, st, 0)
  else
    let key := cache_key speaker_id text
    if (st.cache.lookup key).any fs then
      (st.cache.lookup key, st, 0)
    else
      let res := _generate_audio_sync engine fuel st text speaker_id
      match res.1 with
      | SyncOutcome.ok audio_path =>
        if audio_path ≠ "" then
          (some audio_path,
           { res.2.1 with cache := dict_insert res.2.1.cache key audio_path },
           res.2.2)
        else
          (some audio_path, res.2.1, res.2.2)
      | SyncOutcome.failed => (none, res.2.1, res.2.2)
      | SyncOutcome.diverged => (none, res.2.1, res.2.2)

/-- Embedding of `VoiceVoxClient.text_to_speech_parallel` of the
replacement module: it simply delegates to `generate_audio`. -/
def text_to_speech_parallel (fuel : Nat) (engine : Engine) (fs : String → Bool)
    (st : VoiceVoxClientState) (text : List Char) (speaker_id : Nat) :
    Option String × VoiceVoxClientState × Nat :=
  generate_audio fuel engine fs st text speaker_id

/-- Embedding of `VoiceVoxClient.cleanup_cache` (`fix_voicevox.py`,
lines 185-196 of the embedded module): delete every entry whose backing
file no longer exists. -/
def cleanup_cache (fs : String → Bool) :
    List (List Char × String) → List (List Char × String)
  | [] => []
  | (key, path) :: rest =>
    if fs path then (key, path) :: cleanup_cache fs rest
    else cleanup_cache fs rest

/-- Snapshot of the module-level `user_status` dict of `src/discord_bot.py`
(lines 318-326). -/
structure UserStatus where
  is_playing : Bool
  game_name : Option String
  in_voice_channel : Bool
  left_voice_at : Option Nat
  needs_greeting : Bool
  online_status : Bool
  last_autonomous_join : Option Nat
  deriving DecidableEq

/-- The per-bot state the presence monitor reads and writes: identifier,
whether a character was assigned (`bot_instance.character`), and whether
`bot_instance.voice_client` is connected. -/
structure BotState where
  bot_id : Nat
  has_character : Bool
  voice_connected : Bool
  deriving DecidableEq

/-- Externally visible effects issued by the presence monitor. -/
inductive BotAction where
  | join (bot_id : Nat) (channel : Nat)
  | greet (bot_id : Nat)
  | disconnect (bot_id : Nat)
  deriving DecidableEq

/-- The join-edge loop of `check_user_status` (`src/discord_bot.py`,
lines 395-402): each bot in order waits 5 seconds, joins the channel the
user is in, and queues a greeting when it has a character. -/
def join_and_greet_all : List BotState → Nat → List BotAction
  | [], _ => []
  | b :: rest, channel =>
    (BotAction.join b.bot_id channel ::
      (if b.has_character then [BotAction.greet b.bot_id] else [])) ++
      join_and_greet_all rest channel

/-- The grace-timeout loop of `check_user_status` (`src/discord_bot.py`,
lines 412-416): disconnect every bot whose voice client is connected and
null out its handle. -/
def disconnect_all : List BotState → List BotState × List BotAction
  | [] => ([], [])
  | b :: rest =>
    let res := disconnect_all rest
    if b.voice_connected then
      ({ b with voice_connected := false } :: res.1,
       BotAction.disconnect b.bot_id :: res.2)
    else
      (b :: res.1, res.2)

/-- Embedding of the voice-membership portion of `check_user_status`
(`src/discord_bot.py`, lines 385-419): the join and leave edges computed
from the member's `voice` state (`voice_state : Option channel-id`,
`none` meaning not in voice), followed in the same cycle by the 3-minute
grace timeout, which runs on the updated `user_status`. The activity-name
and online-status sections of the task (lines 364-384 and 421-436) mutate
unrelated fields or only log and are out of this embedding's scope. -/
def check_user_status_voice (now : Nat) (voice_state : Option Nat)
    (st : UserStatus) (bots : List BotState) :
    UserStatus × List BotState × List BotAction :=
  let previous_in_voice := st.in_voice_channel
  let st1 := { st with in_voice_channel := voice_state.isSome }
  let edge :=
    match voice_state, previous_in_voice with
    | some channel, false =>
      ({ st1 with needs_greeting := true }, join_and_greet_all bots channel)
    | none, true =>
      ({ st1 with left_voice_at := some now }, ([] : List BotAction))
    | _, _ => (st1, ([] : List BotAction))
  match edge.1.left_voice_at with
  | some t =>
    if 180 < now - t then
      let d := disconnect_all bots
      ({ edge.1 with left_voice_at := none }, d.1, edge.2 ++ d.2)
    else
      (edge.1, bots, edge.2)
  | none => (edge.1, bots, edge.2)

/-- Cooldown gate of `autonomous_voice_join` (`src/discord_bot.py`,
lines 469-470): no previous autonomous join, or more than 30 minutes
(1800 seconds) since it. -/
def cooldown_elapsed (now : Nat) : Option Nat → Bool
  | none => true
  | some t => decide (1800 < now - t)

/-- Embedding of `autonomous_voice_join` (`src/discord_bot.py`,
lines 461-496): guarded on the user being online, not in the voice
channel, and a configured channel id; then on the cooldown; then on a bot
existing (`random.choice(bots)` — which bot is chosen is irrelevant here)
and the channel object resolving. On a join, `last_autonomous_join` is set
to `now`. The boolean result records whether a join was performed. -/
def autonomous_voice_join (now : Nat) (voice_channel_id : Nat)
    (st : UserStatus) (bots_exist channel_found : Bool) : UserStatus × Bool :=
  if st.online_status && !st.in_voice_channel && (voice_channel_id != 0) then
    if cooldown_elapsed now st.last_autonomous_join then
      if bots_exist then
        if channel_found then
          ({ st with last_autonomous_join := some now }, true)
        else (st, false)
      else (st, false)
    else (st, false)
  else (st, false)

/-- Python `str.strip`: drop leading and trailing whitespace. -/
def strip (s : List Char) : List Char :=
  ((s.dropWhile Char.isWhitespace).reverse.dropWhile Char.isWhitespace).reverse

/-- Embedding of `GeminiClient.generate_response`
(`src/gemini_client.py`, lines 74-89). `model_output` is what
`self.model.generate_content(...).text` produced, `none` when any step of
the try block raised; the response is stripped and, when longer than 100
characters, cut to its first 100 characters with `"..."` appended
(lines 80-81). On failure `random.choice(character_info["phrases"])` is
returned, modelled by an index into the persona's preset phrases. -/
def generate_response (model_output : Option (List Char))
    (phrases : List (List Char)) (pick : Nat) : List Char :=
  match model_output with
  | some response_text =>
    let t := strip response_text
    if 100 < t.length then t.take 100 ++ ellipsis else t
  | none => phrases.getD (pick % phrases.length) []

/-- One entry of `CharacterManager.conversation_history`
(`src/character_manager.py`, lines 169-173). -/
structure ConversationEntry where
  speaker : List Char
  text : List Char
  timestamp : Nat
  deriving DecidableEq

/-- Embedding of `CharacterManager.record_conversation`
(`src/character_manager.py`, lines 161-177): append the entry, then keep
only the last 20 entries when the history exceeds 20. -/
def record_conversation (history : List ConversationEntry)
    (speaker text : List Char) (now : Nat) : List ConversationEntry :=
  let h := history ++ [{ speaker := speaker, text := text, timestamp := now }]
  if 20 < h.length then h.drop (h.length - 20) else h

/-- Embedding of `CharacterManager.get_conversation_history`
(`src/character_manager.py`, lines 179-186): returns the stored list. -/
def get_conversation_history (history : List ConversationEntry) :
    List ConversationEntry := history

/-- Externally visible effects of the `on_message` handler. -/
inductive MessageAction where
  | generate_reply
  | record_history
  | send_embed
  | queue_audio
  deriving DecidableEq

/-- Embedding of the `on_message` handler of `CharacterBot`
(`src/discord_bot.py`, lines 133-168): a message from the bot itself is
dropped at once; a message mentioning the bot triggers response
generation, history recording and an embed reply, plus audio queueing when
the bot's voice client is connected; anything else is ignored. The
50%-probability emoji suffix only alters the reply text, not the effect
sequence. -/
def on_message (author_is_self mentioned voice_connected : Bool) :
    List MessageAction :=
  if author_is_self then []
  else if mentioned then
    [MessageAction.generate_reply, MessageAction.record_history,
      MessageAction.send_embed] ++
      (if voice_connected then [MessageAction.queue_audio] else [])
  else []

/-- Concrete `user_status` used by the C3 counterexample and witness: the
user is out of voice with a pending `left_voice_at` timestamp. -/
def rejoin_status : UserStatus :=
  { is_playing := false, game_name := none, in_voice_channel := false,
    left_voice_at := some 10, needs_greeting := false, online_status := true,
    last_autonomous_join := none }

/-- Concrete bot pool used by the C3 counterexample and witness. -/
def rejoin_bots : List BotState :=
  [{ bot_id := 0, has_character := true, voice_connected := false }]

/-- Concrete `user_status` used by the C5 witness: user absent,
`left_voice_at` recorded at second 100. -/
def absent_status : UserStatus :=
  { is_playing := false, game_name := none, in_voice_channel := false,
    left_voice_at := some 100, needs_greeting := false, online_status := true,
    last_autonomous_join := none }

/-- Concrete bot pool used by the C5 witness: one connected bot. -/
def absent_bots : List BotState :=
  [{ bot_id := 0, has_character := true, voice_connected := true }]

/-- Concrete `user_status` used by the C6 theorem and witness: user online,
not in voice, no previous autonomous join. -/
def idle_status : UserStatus :=
  { is_playing := false, game_name := none, in_voice_channel := false,
    left_voice_at := none, needs_greeting := false, online_status := true,
    last_autonomous_join := none }

/-- Concrete engine used by the C1 and C4 witnesses: every request
succeeds and lands in the same temp file. -/
def constant_engine : Engine := fun _ _ => some "/tmp/a.wav"

/-- Concrete 60-character input used by the C2 witness. -/
def long_text : List Char := List.replicate 60 'a'

section CacheLemmas

/-- A key absent from an association list fails the membership test used by
`dict_insert`. -/
lemma any_key_eq_false_of_lookup_none (c : List (List Char × String)) (k : List Char)
    (h : c.lookup k = none) : (c.any fun kv => k == kv.1) = false := by
  induction c with
  | nil => rfl
  | cons hd tl ih =>
    obtain ⟨a, b⟩ := hd
    rw [List.lookup_cons] at h
    rw [List.any_cons]
    cases hka : (k == a) with
    | true => rw [hka] at h; simp at h
    | false =>
      rw [hka] at h
      simp only [Bool.false_or]
      exact ih h

/-- Inserting a fresh key appends it. -/
lemma dict_insert_of_lookup_none (c : List (List Char × String)) (k : List Char)
    (v : String) (h : c.lookup k = none) : dict_insert c k v = c ++ [(k, v)] := by
  unfold dict_insert
  rw [any_key_eq_false_of_lookup_none c k h]
  simp

/-- Looking up a freshly appended key finds its value. -/
lemma lookup_append_single (c : List (List Char × String)) (k : List Char)
    (v : String) (h : c.lookup k = none) : (c ++ [(k, v)]).lookup k = some v := by
  induction c with
  | nil => simp [List.lookup]
  | cons hd tl ih =>
    obtain ⟨a, b⟩ := hd
    rw [List.lookup_cons] at h
    rw [List.cons_append, List.lookup_cons]
    cases hka : (k == a) with
    | true => rw [hka] at h; simp at h
    | false =>
      rw [hka] at h
      exact ih h

/-- The synchronous worker never touches the cache. -/
lemma sync_cache_eq (engine : Engine) (fuel : Nat) (st : VoiceVoxClientState)
    (text : List Char) (speaker_id : Nat) :
    (_generate_audio_sync engine fuel st text speaker_id).2.1.cache = st.cache := by
  induction fuel generalizing st text with
  | zero => rfl
  | succ n ih =>
    rw [_generate_audio_sync]
    cases engine text speaker_id with
    | some p => rfl
    | none =>
      by_cases hc : 5 < st.error_count + 1 ∧ 50 < text.length
      · simp only [hc, if_true]
        exact ih _ _
      · simp only [hc, if_false]

/-- Engine success returns the path at once, leaving the whole client state
(in particular `error_count` and `last_success_time`) untouched: the reset
statements of the source stand after the `return` and never run. -/
lemma sync_success (engine : Engine) (fuel : Nat) (st : VoiceVoxClientState)
    (text : List Char) (speaker_id : Nat) (p : String)
    (h : engine text speaker_id = some p) :
    _generate_audio_sync engine (fuel + 1) st text speaker_id = (SyncOutcome.ok p, st, 1) := by
  rw [_generate_audio_sync, h]

end CacheLemmas

/-- C1: cache idempotence of the synthesis operation. If the key is not
cached, the text is not whitespace-only, and the engine succeeds with path
`p`, then the first `generate_audio` call returns `p` after exactly one
engine round trip and stores it, and a second call with identical
arguments — under any engine and any fuel, since the engine is never
contacted — returns the cached `p` with zero engine round trips, provided
`p` still exists on disk. -/
theorem cache_idempotence_c1 (fuel fuel2 : Nat) (engine engine2 : Engine)
    (fs fs2 : String → Bool) (st : VoiceVoxClientState) (text : List Char)
    (speaker_id : Nat) (p : String)
    (hws : text.all Char.isWhitespace = false)
    (hmiss : st.cache.lookup (cache_key speaker_id text) = none)
    (heng : engine text speaker_id = some p)
    (hp : p ≠ "")
    (hfs2 : fs2 p = true) :
    generate_audio (fuel + 1) engine fs st text speaker_id =
      (some p, { st with cache := st.cache ++ [(cache_key speaker_id text, p)] }, 1) ∧
    generate_audio fuel2 engine2 fs2
        { st with cache := st.cache ++ [(cache_key speaker_id text, p)] } text speaker_id =
      (some p, { st with cache := st.cache ++ [(cache_key speaker_id text, p)] }, 0) := by
  constructor
  · rw [generate_audio]
    rw [hws]
    simp only [Bool.false_eq_true, if_false]
    rw [hmiss]
    simp only [Option.any_none, Bool.false_eq_true, if_false]
    rw [sync_success engine fuel st text speaker_id p heng]
    simp only [if_pos hp]
    rw [dict_insert_of_lookup_none st.cache (cache_key speaker_id text) p hmiss]
  · rw [generate_audio]
    rw [hws]
    simp only [Bool.false_eq_true, if_false]
    have hlook : ({ st with cache := st.cache ++ [(cache_key speaker_id text, p)]} :
        VoiceVoxClientState).cache.lookup (cache_key speaker_id text) = some p := by
      exact lookup_append_single st.cache (cache_key speaker_id text) p hmiss
    rw [hlook]
    simp only [Option.any_some, hfs2, if_true]

/-- Witness for C1 at a concrete input: empty cache, text `"hi"`, speaker
1, an engine that always answers `/tmp/a.wav`, a filesystem on which the
file exists. -/
theorem cache_idempotence_c1_witness :
    generate_audio (0 + 1) constant_engine (fun _ => true)
        (VoiceVoxClientState.mk [] 0 0) ['h', 'i'] 1 =
      (some "/tmp/a.wav",
       { VoiceVoxClientState.mk [] 0 0 with
          cache := [] ++ [(cache_key 1 ['h', 'i'], "/tmp/a.wav")] }, 1) ∧
    generate_audio 7 (fun _ _ => none) (fun _ => true)
        { VoiceVoxClientState.mk [] 0 0 with
            cache := [] ++ [(cache_key 1 ['h', 'i'], "/tmp/a.wav")] } ['h', 'i'] 1 =
      (some "/tmp/a.wav",
       { VoiceVoxClientState.mk [] 0 0 with
          cache := [] ++ [(cache_key 1 ['h', 'i'], "/tmp/a.wav")] }, 0) :=
  cache_idempotence_c1 0 7 constant_engine (fun _ _ => none) (fun _ => true)
    (fun _ => true) (VoiceVoxClientState.mk [] 0 0) ['h', 'i'] 1 "/tmp/a.wav"
    (by decide) rfl rfl (by decide) rfl

/-- C2 (divergence witness for the code bug): under persistent engine
failure, once the consecutive-failure counter is at least 5, any call on a
text longer than 50 characters never terminates, for every fuel bound —
the truncated retry text has 53 characters, which is again longer than 50,
so the recursion re-fires on the same 53-character text forever, instead
of the single retry the specification states. -/
theorem truncation_retry_diverges_c2 (fuel : Nat) (st : VoiceVoxClientState)
    (text : List Char) (speaker_id : Nat) (hc : 5 ≤ st.error_count)
    (hl : 50 < text.length) :
    (_generate_audio_sync (fun _ _ => none) fuel st text speaker_id).1 =
      SyncOutcome.diverged := by
  induction fuel generalizing st text with
  | zero => rfl
  | succ n ih =>
    rw [_generate_audio_sync]
    simp only
    rw [if_pos ⟨by omega, hl⟩]
    exact ih { st with error_count := st.error_count + 1 } (text.take 50 ++ ellipsis)
      (by simp only; omega)
      (by simp only [List.length_append, List.length_take, ellipsis]; simp; omega)

/-- Witness for C2 at the spec's own scenario: 6 prior consecutive
failures and a 60-character input; no fuel bound suffices, i.e. the call
recurses without bound. -/
theorem truncation_retry_diverges_c2_witness :
    5 ≤ (VoiceVoxClientState.mk [] 6 0).error_count ∧ 50 < long_text.length ∧
    (_generate_audio_sync (fun _ _ => none) 1000 (VoiceVoxClientState.mk [] 6 0)
        long_text 1).1 = SyncOutcome.diverged :=
  ⟨by decide, by decide,
    truncation_retry_diverges_c2 1000 (VoiceVoxClientState.mk [] 6 0) long_text 1
      (by decide) (by decide)⟩

/-- C4 (evaluation of the code at the failing input): on a genuine engine
success the worker returns the path with the client state completely
unchanged — in particular the consecutive-failure counter keeps its old
value and the last-success timestamp is not updated, because the reset
statements of the source stand after the `return` (lines 93-95 of the
replacement module) and are unreachable. -/
theorem success_leaves_error_count_c4 (fuel : Nat) (engine : Engine)
    (st : VoiceVoxClientState) (text : List Char) (speaker_id : Nat) (p : String)
    (h : engine text speaker_id = some p) :
    _generate_audio_sync engine (fuel + 1) st text speaker_id =
      (SyncOutcome.ok p, st, 1) ∧
    (_generate_audio_sync engine (fuel + 1) st text speaker_id).2.1.error_count =
      st.error_count :=
  ⟨sync_success engine fuel st text speaker_id p h,
   by rw [sync_success engine fuel st text speaker_id p h]⟩

/-- Witness for C4: a successful call entered with 3 accumulated failures
exits still holding 3, not the 0 the specification requires. -/
theorem success_leaves_error_count_c4_witness :
    _generate_audio_sync constant_engine (0 + 1) (VoiceVoxClientState.mk [] 3 0)
        ['h', 'i'] 1 = (SyncOutcome.ok "/tmp/a.wav", VoiceVoxClientState.mk [] 3 0, 1) ∧
    (_generate_audio_sync constant_engine (0 + 1) (VoiceVoxClientState.mk [] 3 0)
        ['h', 'i'] 1).2.1.error_count = (VoiceVoxClientState.mk [] 3 0).error_count :=
  success_leaves_error_count_c4 0 constant_engine (VoiceVoxClientState.mk [] 3 0)
    ['h', 'i'] 1 "/tmp/a.wav" rfl

/-- C8: the cache is only ever extended by a successful synthesis — after
any `generate_audio` call the cache is either unchanged or the old cache
with the key bound to the non-empty path the worker returned (so no key is
ever bound to a `None`-like value) — and `cleanup_cache` removes exactly
the entries whose backing file no longer exists. -/
theorem cache_values_from_success_c8 :
    (∀ (fuel : Nat) (engine : Engine) (fs : String → Bool)
        (st : VoiceVoxClientState) (text : List Char) (speaker_id : Nat),
      (generate_audio fuel engine fs st text speaker_id).2.1.cache = st.cache ∨
      ∃ p, p ≠ "" ∧ (generate_audio fuel engine fs st text speaker_id).1 = some p ∧
        (_generate_audio_sync engine fuel st text speaker_id).1 = SyncOutcome.ok p ∧
        (generate_audio fuel engine fs st text speaker_id).2.1.cache =
          dict_insert st.cache (cache_key speaker_id text) p) ∧
    (∀ (fs : String → Bool) (c : List (List Char × String)),
      cleanup_cache fs c = c.filter fun kv => fs kv.2) := by
  constructor
  · intro fuel engine fs st text speaker_id
    by_cases hws : text.all Char.isWhitespace
    · left
      simp [generate_audio, hws]
    · by_cases hhit : ((st.cache.lookup (cache_key speaker_id text)).any fs) = true
      · left
        simp [generate_audio, hws, hhit]
      · cases hres : (_generate_audio_sync engine fuel st text speaker_id).1 with
        | ok p =>
          by_cases hp : p = ""
          · left
            simp [generate_audio, hws, hhit, hres, hp, sync_cache_eq]
          · right
            refine ⟨p, hp, ?_, rfl, ?_⟩
            · simp [generate_audio, hws, hhit, hres, hp]
            · simp [generate_audio, hws, hhit, hres, hp, sync_cache_eq]
        | failed =>
          left
          simp [generate_audio, hws, hhit, hres, sync_cache_eq]
        | diverged =>
          left
          simp [generate_audio, hws, hhit, hres, sync_cache_eq]
  · intro fs c
    induction c with
    | nil => rfl
    | cons hd tl ih =>
      obtain ⟨k, p⟩ := hd
      by_cases hfs : fs p
      · simp [cleanup_cache, hfs, ih]
      · simp [cleanup_cache, hfs, ih]

/-- Every bot in the pool produced by the grace-timeout loop has its voice
client disconnected. -/
lemma disconnect_all_disconnected (bots : List BotState) :
    ∀ b ∈ (disconnect_all bots).1, b.voice_connected = false := by
  induction bots with
  | nil => intro b hb; simp [disconnect_all] at hb
  | cons hd tl ih =>
    intro b hb
    by_cases hc : hd.voice_connected = true
    · rw [show (disconnect_all (hd :: tl)).1 =
          { hd with voice_connected := false } :: (disconnect_all tl).1 from by
        simp [disconnect_all, hc]] at hb
      rcases List.mem_cons.mp hb with h | h
      · subst h; rfl
      · exact ih b h
    · rw [show (disconnect_all (hd :: tl)).1 = hd :: (disconnect_all tl).1 from by
        simp [disconnect_all, hc]] at hb
      rcases List.mem_cons.mp hb with h | h
      · subst h; simpa using hc
      · exact ih b h

/-- C3 counterexample: an observed not-in-voice → in-voice transition
(`rejoin_status.in_voice_channel = false`, member voice state present)
leaves `left_voice_at` at its old value `some 10` instead of clearing it
to `None` as the claim states. -/
theorem rejoin_keeps_left_voice_at_c3_counterexample :
    rejoin_status.in_voice_channel = false ∧
    (check_user_status_voice 20 (some 5) rejoin_status rejoin_bots).1.in_voice_channel = true ∧
    (check_user_status_voice 20 (some 5) rejoin_status rejoin_bots).1.left_voice_at = some 10 :=
  ⟨rfl, rfl, rfl⟩

/-- C3 as amended: on every observed not-in-voice → in-voice transition the
monitor marks `needs_greeting` (it does not touch `left_voice_at`, which is
cleared only by the grace-timeout disconnect), and after the per-bot fixed
5-second delay every bot joins the user's channel, each bot with a
character queueing a greeting. Stated away from a pending grace timeout
(elapsed time at most 180 s), where the same-cycle timeout block is
inert. -/
theorem voice_join_edge_c3_amended (now channel : Nat) (st : UserStatus)
    (bots : List BotState) (hprev : st.in_voice_channel = false)
    (hgrace : ∀ t, st.left_voice_at = some t → now - t ≤ 180) :
    (check_user_status_voice now (some channel) st bots).1.needs_greeting = true ∧
    (check_user_status_voice now (some channel) st bots).1.in_voice_channel = true ∧
    (check_user_status_voice now (some channel) st bots).1.left_voice_at = st.left_voice_at ∧
    (check_user_status_voice now (some channel) st bots).2.1 = bots ∧
    (check_user_status_voice now (some channel) st bots).2.2 =
      join_and_greet_all bots channel := by
  cases hlv : st.left_voice_at with
  | none => simp [check_user_status_voice, hprev, hlv]
  | some t =>
    have h180 : ¬ (180 < now - t) := by have := hgrace t hlv; omega
    simp [check_user_status_voice, hprev, hlv, h180]

/-- Witness for the amended C3 at a concrete input: user rejoins 10 s
after leaving; the bot joins and greets, and `left_voice_at` is carried
over unchanged. -/
theorem voice_join_edge_c3_witness :
    (check_user_status_voice 20 (some 5) rejoin_status rejoin_bots).1.needs_greeting = true ∧
    (check_user_status_voice 20 (some 5) rejoin_status rejoin_bots).1.in_voice_channel = true ∧
    (check_user_status_voice 20 (some 5) rejoin_status rejoin_bots).1.left_voice_at =
      rejoin_status.left_voice_at ∧
    (check_user_status_voice 20 (some 5) rejoin_status rejoin_bots).2.1 = rejoin_bots ∧
    (check_user_status_voice 20 (some 5) rejoin_status rejoin_bots).2.2 =
      join_and_greet_all rejoin_bots 5 :=
  voice_join_edge_c3_amended 20 5 rejoin_status rejoin_bots rfl
    (by intro t ht; simp [rejoin_status] at ht; omega)

/-- C5: the grace timeout. With the user out of voice and a recorded
leave time `t`: once `now - t` exceeds 180 s, `left_voice_at` is cleared,
every bot in the resulting pool is disconnected, and the issued actions
are exactly the disconnects of the previously connected bots; while
`now - t` is at most 180 s, nothing happens — no disconnect is issued, the
pool is untouched and `left_voice_at` is kept. -/
theorem grace_timeout_c5 (now t : Nat) (st : UserStatus) (bots : List BotState)
    (hin : st.in_voice_channel = false) (hlv : st.left_voice_at = some t) :
    (180 < now - t →
      (check_user_status_voice now none st bots).1.left_voice_at = none ∧
      (∀ b ∈ (check_user_status_voice now none st bots).2.1, b.voice_connected = false) ∧
      (check_user_status_voice now none st bots).2.2 = (disconnect_all bots).2) ∧
    (now - t ≤ 180 →
      (check_user_status_voice now none st bots).1.left_voice_at = some t ∧
      (check_user_status_voice now none st bots).2.1 = bots ∧
      (check_user_status_voice now none st bots).2.2 = []) := by
  constructor
  · intro h180
    refine ⟨by simp [check_user_status_voice, hin, hlv, h180], ?_,
      by simp [check_user_status_voice, hin, hlv, h180]⟩
    intro b hb
    apply disconnect_all_disconnected bots b
    simpa [check_user_status_voice, hin, hlv, h180] using hb
  · intro h180
    have hn : ¬ (180 < now - t) := by omega
    simp [check_user_status_voice, hin, hlv, hn]

/-- Witness for C5 at a concrete input: leave at second 100, check at
second 400 (elapsed 300 s > 180 s) with one connected bot — the leave
timestamp is cleared and the disconnect actions are issued. -/
theorem grace_timeout_c5_witness :
    (check_user_status_voice 400 none absent_status absent_bots).1.left_voice_at = none ∧
    (check_user_status_voice 400 none absent_status absent_bots).2.2 =
      (disconnect_all absent_bots).2 :=
  ⟨((grace_timeout_c5 400 100 absent_status absent_bots rfl rfl).1 (by decide)).1,
   ((grace_timeout_c5 400 100 absent_status absent_bots rfl rfl).1 (by decide)).2.2⟩

/-- C6: the autonomous-join cooldown invariant. A join is performed only
when the monitored user is online, not in the voice channel, and the
30-minute cooldown has elapsed (or no autonomous join ever happened); any
join performed at `now` blocks a further join at `now + 600` (10 minutes
later), so two checks 10 minutes apart yield at most one join; and a
concrete run shows a check 1900 s (more than 30 minutes) after a join
yielding a second join. -/
theorem autonomous_join_cooldown_c6 :
    (∀ (now ch : Nat) (st : UserStatus) (be cf : Bool),
      (autonomous_voice_join now ch st be cf).2 = true →
      st.online_status = true ∧ st.in_voice_channel = false ∧
      cooldown_elapsed now st.last_autonomous_join = true ∧
      (autonomous_voice_join (now + 600) ch
          (autonomous_voice_join now ch st be cf).1 be cf).2 = false) ∧
    ((autonomous_voice_join 1000 7 idle_status true true).2 = true ∧
     (autonomous_voice_join 2900 7
        (autonomous_voice_join 1000 7 idle_status true true).1 true true).2 = true) := by
  constructor
  · intro now ch st be cf h
    rw [autonomous_voice_join] at h
    have h1 : (st.online_status && !st.in_voice_channel && (ch != 0)) = true := by
      by_contra hcon
      rw [if_neg hcon] at h
      simp at h
    rw [if_pos h1] at h
    have h2 : cooldown_elapsed now st.last_autonomous_join = true := by
      by_contra hcon
      rw [if_neg hcon] at h
      simp at h
    rw [if_pos h2] at h
    have hbe : be = true := by
      by_contra hcon
      rw [if_neg hcon] at h
      simp at h
    rw [if_pos hbe] at h
    have hcf : cf = true := by
      by_contra hcon
      rw [if_neg hcon] at h
      simp at h
    have hflags : (st.online_status = true ∧ st.in_voice_channel = false) ∧ ch ≠ 0 := by
      simpa [Bool.and_eq_true, Bool.not_eq_true'] using h1
    refine ⟨hflags.1.1, hflags.1.2, h2, ?_⟩
    have hres1 : (autonomous_voice_join now ch st be cf).1 =
        { st with last_autonomous_join := some now } := by
      rw [autonomous_voice_join, if_pos h1, if_pos h2, if_pos hbe, if_pos hcf]
    rw [hres1]
    have hcool : cooldown_elapsed (now + 600) (some now) = false := by
      simp [cooldown_elapsed, Nat.add_sub_cancel_left]
    simp [autonomous_voice_join, h1, hcool]
  · exact ⟨by decide, by decide⟩

/-- Witness for C6: a join performed at second 1000 (no prior join, user
online and out of voice) blocks the eligibility check at second 1600,
10 minutes later. -/
theorem autonomous_join_cooldown_c6_witness :
    (autonomous_voice_join 1000 7 idle_status true true).2 = true ∧
    (autonomous_voice_join (1000 + 600) 7
        (autonomous_voice_join 1000 7 idle_status true true).1 true true).2 = false :=
  ⟨by decide,
   (autonomous_join_cooldown_c6.1 1000 7 idle_status true true (by decide)).2.2.2⟩

/-- C7 counterexample: a generated response of 101 characters is returned
with 103 characters (`text[:100] + "..."`), more than the 100-character
bound the claim states. -/
theorem response_truncation_c7_counterexample :
    100 < (generate_response (some (List.replicate 101 'a')) [] 0).length := by
  decide

/-- C7 as amended: on the generation path, a stripped response longer than
100 characters is truncated to its first 100 characters plus a
three-character ellipsis marker, so every returned string on that path has
length at most 103 (not 100); fallback phrases on the failure path are
returned as configured, unmodified. -/
theorem response_truncation_c7_amended (raw : List Char)
    (phrases : List (List Char)) (pick : Nat) :
    (generate_response (some raw) phrases pick).length ≤ 103 := by
  simp only [generate_response]
  by_cases h : 100 < (strip raw).length
  · rw [if_pos h]
    simp only [List.length_append, List.length_take, ellipsis, List.length_cons,
      List.length_nil]
    omega
  · rw [if_neg h]
    omega

/-- C9: after every `record_conversation` the stored history — exactly
what `get_conversation_history` returns — has at most 20 entries and
equals the appended history with its oldest entries dropped (natural
subtraction makes the drop count 0 while the appended history fits in 20
entries). -/
theorem history_bounded_c9 (history : List ConversationEntry)
    (speaker text : List Char) (now : Nat) :
    (get_conversation_history (record_conversation history speaker text now)).length ≤ 20 ∧
    get_conversation_history (record_conversation history speaker text now) =
      (history ++ [ConversationEntry.mk speaker text now]).drop
        (history.length + 1 - 20) := by
  unfold get_conversation_history record_conversation
  simp only [List.length_append, List.length_cons, List.length_nil]
  by_cases h : 20 < history.length + 1
  · rw [if_pos (by simpa using h)]
    constructor
    · simp only [List.length_drop, List.length_append, List.length_cons, List.length_nil]
      omega
    · simp
  · rw [if_neg (by simpa using h)]
    constructor
    · simp only [List.length_append, List.length_cons, List.length_nil]
      omega
    · rw [Nat.sub_eq_zero_of_le (by omega), List.drop_zero]

/-- C10: the self-message guard — a message whose author is the bot itself
produces no effect at all: no generation, no history record, no reply, no
audio queueing, for every mention and voice-connection state. -/
theorem self_message_guard_c10 (mentioned voice_connected : Bool) :
    on_message true mentioned voice_connected = [] := rfl

end AIChatBot
